import Mathlib

/-!
Verification of the HR working-hours analysis frontend.

Shallow embedding of `src/lib/api.ts`, `frontend/src/lib/api.ts` and the
page components (dashboard, reports).  JavaScript numbers are modelled as
rationals; a field that may be `undefined` or `null` is an `Option`
(the source only ever distinguishes them through `??`, which treats both
alike); a settled `fetch` promise is a `FetchOutcome`: either a rejection
(network error or timeout abort) or a response carrying its `ok` flag and
parsed JSON body.  An `async` function body is `Except Unit α`, where
`Except.error ()` is a rejected promise (an uncaught exception) and
`Except.ok` a resolved one.
-/

namespace HRAnalysis

/-- `getBaseUrl`: `process.env.NEXT_PUBLIC_API_URL ?? ""`.  Both branches of
the `typeof window` test return the same expression, so the environment
variable (`none` when unset) is the only input. -/
def getBaseUrl (env : Option String) : String := env.getD ""

/-- The regex replace `.replace(/\/$/, "")`: the pattern is anchored at the
end and matches exactly one `/`, so it strips a single trailing slash and
leaves every other string unchanged.  Modelled on the character list of the
string so that it evaluates. -/
def stripTrailingSlash (s : String) : String :=
  if s.data.getLast? = some '/' then String.mk s.data.dropLast else s

/-- `baseUrl()` from `src/lib/api.ts`. -/
def baseUrl (env : Option String) : String := stripTrailingSlash (getBaseUrl env)

/-- URL construction shared by `api` and `apiForm`:
`const url = base ? baseUrl() + path : path`, where the empty string is the
only falsy string. -/
def requestUrl (env : Option String) (path : String) : String :=
  if getBaseUrl env ≠ "" then baseUrl env ++ path else path

/-- The `Employee` interface of `src/lib/api.ts`. -/
structure Employee where
  id : ℚ
  name : String
  surname : String
  created_at : Option String
deriving DecidableEq, Repr

/-- The backend analysis shape consumed by `mapAnalysis`: `id`,
`employee_id`, `year`, nullable/optional `theoretical_working_hours` and
`actual_working_hours`, optional `created_at`. -/
structure RawAnalysis where
  id : ℚ
  employee_id : ℚ
  year : ℚ
  theoretical_working_hours : Option ℚ
  actual_working_hours : Option ℚ
  created_at : Option String
deriving DecidableEq, Repr

/-- The `Analysis` interface of `src/lib/api.ts`: note it has fields
`theoretical_hours` and `actual_hours` but no field named
`theoretical_working_hours` or `actual_working_hours`. -/
structure Analysis where
  id : ℚ
  employee_id : ℚ
  year : ℚ
  theoretical_hours : ℚ
  actual_hours : ℚ
  efficiency_percentage : ℚ
  created_at : Option String
deriving DecidableEq, Repr

/-- `mapAnalysis` from `src/lib/api.ts`:
`theoretical = raw.theoretical_working_hours ?? 0`,
`actual = raw.actual_working_hours ?? 0`,
`efficiency = theoretical > 0 ? (actual / theoretical) * 100 : 0`. -/
def mapAnalysis (raw : RawAnalysis) : Analysis :=
  let theoretical := raw.theoretical_working_hours.getD 0
  let actual := raw.actual_working_hours.getD 0
  let efficiency := if theoretical > 0 then (actual / theoretical) * 100 else 0
  { id := raw.id
    employee_id := raw.employee_id
    year := raw.year
    theoretical_hours := theoretical
    actual_hours := actual
    efficiency_percentage := efficiency
    created_at := raw.created_at }

/-- Reading an `Analysis` value back at `mapAnalysis`'s structural input
type (TypeScript structural typing): the object carries `id`,
`employee_id`, `year` and `created_at`, but has no
`theoretical_working_hours` or `actual_working_hours` property, so those
optional fields read as `undefined`. -/
def Analysis.asRaw (a : Analysis) : RawAnalysis :=
  { id := a.id
    employee_id := a.employee_id
    year := a.year
    theoretical_working_hours := none
    actual_working_hours := none
    created_at := a.created_at }

/-- The analysis shape produced by `frontend/src/lib/api.ts`'s variant of
`mapAnalysis`, which additionally echoes the backend field names
`theoretical_working_hours` and `actual_working_hours` into its output. -/
structure AnalysisF where
  id : ℚ
  employee_id : ℚ
  year : ℚ
  theoretical_working_hours : Option ℚ
  actual_working_hours : Option ℚ
  theoretical_hours : ℚ
  actual_hours : ℚ
  efficiency_percentage : ℚ
  created_at : Option String
deriving DecidableEq, Repr

/-- `mapAnalysis` from `frontend/src/lib/api.ts` (suffix `F` to
disambiguate the two source files; the computation is identical, the output
additionally repeats the raw hour fields). -/
def mapAnalysisF (raw : RawAnalysis) : AnalysisF :=
  let theoretical := raw.theoretical_working_hours.getD 0
  let actual := raw.actual_working_hours.getD 0
  let efficiency := if theoretical > 0 then (actual / theoretical) * 100 else 0
  { id := raw.id
    employee_id := raw.employee_id
    year := raw.year
    theoretical_working_hours := raw.theoretical_working_hours
    actual_working_hours := raw.actual_working_hours
    theoretical_hours := theoretical
    actual_hours := actual
    efficiency_percentage := efficiency
    created_at := raw.created_at }

/-- Reading an `AnalysisF` value back at `mapAnalysis`'s structural input
type: this output does carry `theoretical_working_hours` and
`actual_working_hours` properties, so they are visible to a second
application. -/
def AnalysisF.asRaw (a : AnalysisF) : RawAnalysis :=
  { id := a.id
    employee_id := a.employee_id
    year := a.year
    theoretical_working_hours := a.theoretical_working_hours
    actual_working_hours := a.actual_working_hours
    created_at := a.created_at }

/-- A settled `fetch` call: the promise either rejected (network error, or
the 12-second timer fired and the abort signal cancelled it) or resolved to
a response with an `ok` flag and a parsed JSON body of shape `β`. -/
inductive FetchOutcome (β : Type) where
  | rejected : FetchOutcome β
  | response : Bool → β → FetchOutcome β
deriving DecidableEq, Repr

/-- `employeeApi.getAll`: `await api(...)` rethrows a rejection (there is no
`try`/`catch` in this function); otherwise `if (!res.ok) return []`, else
`data.employees ?? []` (body field `none` when the JSON lacks
`employees`). -/
def employeeApi.getAll (out : FetchOutcome (Option (List Employee))) :
    Except Unit (List Employee) :=
  match out with
  | .rejected => .error ()
  | .response ok body => if ok then .ok (body.getD []) else .ok []

/-- `employeeApi.create`: rejection rethrown; `if (!res.ok) return null`,
else the parsed `Employee` body. -/
def employeeApi.create (out : FetchOutcome Employee) :
    Except Unit (Option Employee) :=
  match out with
  | .rejected => .error ()
  | .response ok body => if ok then .ok (some body) else .ok none

/-- `analysisApi.getAll`: rejection rethrown; `if (!res.ok) return []`, else
`(data.analyses ?? []).map(mapAnalysis)`. -/
def analysisApi.getAll (out : FetchOutcome (Option (List RawAnalysis))) :
    Except Unit (List Analysis) :=
  match out with
  | .rejected => .error ()
  | .response ok body => if ok then .ok ((body.getD []).map mapAnalysis) else .ok []

/-- `analysisApi.getById`: rejection rethrown; `if (!res.ok) return null`,
else `mapAnalysis(raw)`. -/
def analysisApi.getById (out : FetchOutcome RawAnalysis) :
    Except Unit (Option Analysis) :=
  match out with
  | .rejected => .error ()
  | .response ok raw => if ok then .ok (some (mapAnalysis raw)) else .ok none

/-- `analysisApi.create`: rejection rethrown; `if (!res.ok) return null`,
else `mapAnalysis(raw)`. -/
def analysisApi.create (out : FetchOutcome RawAnalysis) :
    Except Unit (Option Analysis) :=
  match out with
  | .rejected => .error ()
  | .response ok raw => if ok then .ok (some (mapAnalysis raw)) else .ok none

/-- `fetchData` of the reports page and of the dashboard:
`Promise.all([analysisApi.getAll(), employeeApi.getAll()])` inside
`try`/`catch`.  If either joined promise rejects, `Promise.all` rejects and
the `catch` sets both lists to `[]`; otherwise both resolved lists are
rendered (`analysesData || []` and `employeesData || []` are identities on
arrays). -/
def pageFetchData (aOut : FetchOutcome (Option (List RawAnalysis)))
    (eOut : FetchOutcome (Option (List Employee))) :
    List Analysis × List Employee :=
  match analysisApi.getAll aOut, employeeApi.getAll eOut with
  | .ok as, .ok es => (as, es)
  | .error _, _ => ([], [])
  | _, .error _ => ([], [])

/-- The spec's worked example: `theoretical_working_hours = 160`,
`actual_working_hours = 144`. -/
def raw160 : RawAnalysis :=
  { id := 1
    employee_id := 1
    year := 2024
    theoretical_working_hours := some 160
    actual_working_hours := some 144
    created_at := none }

/-- The division-guard example: `theoretical_working_hours = 0`,
`actual_working_hours = 50`. -/
def rawZero : RawAnalysis :=
  { id := 2
    employee_id := 1
    year := 2024
    theoretical_working_hours := some 0
    actual_working_hours := some 50
    created_at := none }

/-- An input with both hour fields missing. -/
def rawMissing : RawAnalysis :=
  { id := 3
    employee_id := 2
    year := 2023
    theoretical_working_hours := none
    actual_working_hours := none
    created_at := none }

/-- An input with a strictly negative theoretical value. -/
def rawNeg : RawAnalysis :=
  { id := 4
    employee_id := 2
    year := 2023
    theoretical_working_hours := some (-5)
    actual_working_hours := some 50
    created_at := none }

/-- An input where actual exceeds theoretical. -/
def rawOver : RawAnalysis :=
  { id := 5
    employee_id := 3
    year := 2024
    theoretical_working_hours := some 160
    actual_working_hours := some 176
    created_at := none }

/-- The spec's end-to-end employee example. -/
def ada : Employee :=
  { id := 1, name := "Ada", surname := "Lovelace", created_at := none }

/-- C1: whenever `theoretical > 0`, `mapAnalysis` computes
`efficiency_percentage` exactly as `(actual / theoretical) * 100`, with no
rounding or clamping; `theoretical = 160`, `actual = 144` yields exactly
`90`, and actual exceeding theoretical yields a value above `100`. -/
theorem mapAnalysis_efficiency_exact (raw : RawAnalysis) (t : ℚ)
    (ht : raw.theoretical_working_hours = some t) (hpos : 0 < t) :
    (mapAnalysis raw).efficiency_percentage
        = raw.actual_working_hours.getD 0 / t * 100
      ∧ (t < raw.actual_working_hours.getD 0 →
          100 < (mapAnalysis raw).efficiency_percentage)
      ∧ (mapAnalysis raw160).efficiency_percentage = 90
      ∧ 100 < (mapAnalysis rawOver).efficiency_percentage := by
  have hguard : (raw.theoretical_working_hours.getD 0) = t := by
    rw [ht]; rfl
  refine ⟨?_, ?_, ?_, ?_⟩
  · simp only [mapAnalysis, hguard]
    rw [if_pos hpos]
  · intro hlt
    simp only [mapAnalysis, hguard]
    rw [if_pos hpos]
    have h1 : 1 < raw.actual_working_hours.getD 0 / t := (one_lt_div hpos).mpr hlt
    nlinarith
  · norm_num [mapAnalysis, raw160]
  · norm_num [mapAnalysis, rawOver]

/-- Witness for C1 at the concrete input `raw160`. -/
theorem mapAnalysis_efficiency_exact_witness :
    (mapAnalysis raw160).efficiency_percentage
        = raw160.actual_working_hours.getD 0 / 160 * 100
      ∧ ((160 : ℚ) < raw160.actual_working_hours.getD 0 →
          100 < (mapAnalysis raw160).efficiency_percentage)
      ∧ (mapAnalysis raw160).efficiency_percentage = 90
      ∧ 100 < (mapAnalysis rawOver).efficiency_percentage :=
  mapAnalysis_efficiency_exact raw160 160 rfl (by decide)

/-- C2: `mapAnalysis` is total and guards the division: with both hour
fields missing/null they default to `0` and the efficiency is `0`; and
`theoretical = 0` with `actual = 50` yields efficiency `0`. -/
theorem mapAnalysis_total_guard (raw : RawAnalysis)
    (hth : raw.theoretical_working_hours = none)
    (hac : raw.actual_working_hours = none) :
    (mapAnalysis raw).theoretical_hours = 0
      ∧ (mapAnalysis raw).actual_hours = 0
      ∧ (mapAnalysis raw).efficiency_percentage = 0
      ∧ (mapAnalysis rawZero).efficiency_percentage = 0 := by
  refine ⟨?_, ?_, ?_, ?_⟩
  · simp [mapAnalysis, hth]
  · simp [mapAnalysis, hac]
  · simp [mapAnalysis, hth]
  · norm_num [mapAnalysis, rawZero]

/-- Witness for C2 at the concrete input `rawMissing`. -/
theorem mapAnalysis_total_guard_witness :
    (mapAnalysis rawMissing).theoretical_hours = 0
      ∧ (mapAnalysis rawMissing).actual_hours = 0
      ∧ (mapAnalysis rawMissing).efficiency_percentage = 0
      ∧ (mapAnalysis rawZero).efficiency_percentage = 0 :=
  mapAnalysis_total_guard rawMissing rfl rfl

/-- C9: the division guard tests `theoretical > 0`, not `≠ 0`: every
non-positive theoretical value, in particular every strictly negative one,
takes the guarded branch and yields efficiency `0`. -/
theorem mapAnalysis_nonpositive_guard (raw : RawAnalysis) (t : ℚ)
    (ht : raw.theoretical_working_hours = some t) (hle : t ≤ 0) :
    (mapAnalysis raw).efficiency_percentage = 0 := by
  have hguard : (raw.theoretical_working_hours.getD 0) = t := by
    rw [ht]; rfl
  simp only [mapAnalysis, hguard]
  rw [if_neg (not_lt.mpr hle)]

/-- Witness for C9 at the strictly negative input `rawNeg`. -/
theorem mapAnalysis_nonpositive_guard_witness :
    (mapAnalysis rawNeg).efficiency_percentage = 0 :=
  mapAnalysis_nonpositive_guard rawNeg (-5) rfl (by decide)

/-- C10: `mapAnalysis` passes `id`, `employee_id`, `year` and `created_at`
through unchanged, and copies present hour fields into
`theoretical_hours` and `actual_hours` exactly. -/
theorem mapAnalysis_frame (raw : RawAnalysis) :
    (mapAnalysis raw).id = raw.id
      ∧ (mapAnalysis raw).employee_id = raw.employee_id
      ∧ (mapAnalysis raw).year = raw.year
      ∧ (mapAnalysis raw).created_at = raw.created_at
      ∧ (∀ t, raw.theoretical_working_hours = some t →
          (mapAnalysis raw).theoretical_hours = t)
      ∧ (∀ a, raw.actual_working_hours = some a →
          (mapAnalysis raw).actual_hours = a) := by
  refine ⟨rfl, rfl, rfl, rfl, ?_, ?_⟩
  · intro t ht
    simp [mapAnalysis, ht]
  · intro a ha
    simp [mapAnalysis, ha]

/-- Witness for C10 at the concrete input `raw160`. -/
theorem mapAnalysis_frame_witness :
    (mapAnalysis raw160).theoretical_hours = 160
      ∧ (mapAnalysis raw160).actual_hours = 144 :=
  ⟨(mapAnalysis_frame raw160).2.2.2.2.1 160 rfl,
   (mapAnalysis_frame raw160).2.2.2.2.2 144 rfl⟩

/-- C3: the request URL is the base with a single trailing slash stripped,
concatenated with the path (when the base is empty both branches give the
path itself), and the spec's example joins with exactly one slash. -/
theorem requestUrl_single_slash_join (env : Option String) (path : String) :
    requestUrl env path = stripTrailingSlash (getBaseUrl env) ++ path
      ∧ (getBaseUrl env = "" → requestUrl env path = path)
      ∧ requestUrl (some "https://api.example.com/") "/api/employees"
          = "https://api.example.com/api/employees" := by
  refine ⟨?_, ?_, by decide⟩
  · by_cases h : getBaseUrl env = ""
    · simp [requestUrl, h, stripTrailingSlash]
    · simp [requestUrl, h, baseUrl]
  · intro h
    simp [requestUrl, h]

/-- Witness for C3: the empty-base branch at a concrete path. -/
theorem requestUrl_single_slash_join_witness :
    requestUrl none "/api/employees" = "/api/employees" :=
  (requestUrl_single_slash_join none "/api/employees").2.1 rfl

/-- C5 counterexample: a non-2xx response is not handled identically to
the network-failure outcome.  At these concrete inputs, a non-2xx response
resolves the call (`Except.ok` with `[]`/`null`) while a network failure
rejects it (`Except.error`), so the two outcomes differ. -/
theorem nonOk_differs_from_rejection :
    employeeApi.getAll (FetchOutcome.response false none) = Except.ok []
      ∧ employeeApi.getAll FetchOutcome.rejected = Except.error ()
      ∧ employeeApi.getAll (FetchOutcome.response false none)
          ≠ employeeApi.getAll FetchOutcome.rejected
      ∧ analysisApi.create (FetchOutcome.response false raw160) = Except.ok none
      ∧ analysisApi.create FetchOutcome.rejected = Except.error ()
      ∧ analysisApi.create (FetchOutcome.response false raw160)
          ≠ analysisApi.create FetchOutcome.rejected := by
  refine ⟨rfl, rfl, ?_, rfl, rfl, ?_⟩ <;>
    simp [employeeApi.getAll, analysisApi.create]

/-- C5 amended: on any non-2xx response (`ok = false`), whatever the body,
the list calls return `[]` and the create/getById calls return `null`
without reading the body (the result is body-independent, since the `ok`
check precedes `res.json()`); unlike the network-failure outcome, which
rejects these promises, a non-2xx response resolves them. -/
theorem nonOk_collapses_resolved (be : Option (List Employee))
    (ba : Option (List RawAnalysis)) (e : Employee) (r₁ r₂ : RawAnalysis) :
    employeeApi.getAll (FetchOutcome.response false be) = Except.ok []
      ∧ analysisApi.getAll (FetchOutcome.response false ba) = Except.ok []
      ∧ employeeApi.create (FetchOutcome.response false e) = Except.ok none
      ∧ analysisApi.create (FetchOutcome.response false r₁) = Except.ok none
      ∧ analysisApi.getById (FetchOutcome.response false r₂) = Except.ok none
      ∧ employeeApi.getAll (FetchOutcome.response false be)
          ≠ employeeApi.getAll FetchOutcome.rejected
      ∧ analysisApi.getAll (FetchOutcome.response false ba)
          ≠ analysisApi.getAll FetchOutcome.rejected
      ∧ employeeApi.create (FetchOutcome.response false e)
          ≠ employeeApi.create FetchOutcome.rejected
      ∧ analysisApi.create (FetchOutcome.response false r₁)
          ≠ analysisApi.create FetchOutcome.rejected
      ∧ analysisApi.getById (FetchOutcome.response false r₂)
          ≠ analysisApi.getById FetchOutcome.rejected := by
  refine ⟨rfl, rfl, rfl, rfl, rfl, ?_, ?_, ?_, ?_, ?_⟩ <;>
    simp [employeeApi.getAll, analysisApi.getAll, employeeApi.create,
      analysisApi.create, analysisApi.getById]

/-- C4 counterexample: on a rejected fetch (network error or timeout
abort) the API calls do not resolve at all — there is no `try`/`catch`
inside them, so the returned promise rejects. -/
theorem apiCalls_reject_not_resolve :
    employeeApi.getAll FetchOutcome.rejected = Except.error ()
      ∧ employeeApi.getAll FetchOutcome.rejected ≠ Except.ok []
      ∧ analysisApi.getAll FetchOutcome.rejected = Except.error ()
      ∧ analysisApi.getAll FetchOutcome.rejected ≠ Except.ok []
      ∧ employeeApi.create FetchOutcome.rejected ≠ Except.ok none
      ∧ analysisApi.create FetchOutcome.rejected ≠ Except.ok none := by
  refine ⟨rfl, ?_, rfl, ?_, ?_, ?_⟩ <;> simp [employeeApi.getAll,
    analysisApi.getAll, employeeApi.create, analysisApi.create]

/-- C4 amended: on network/timeout failure every API call propagates the
rejection (`Except.error`), and the page components are where it is
caught: their `fetchData` renders both lists empty whenever either joined
promise rejects. -/
theorem rejection_propagates_pages_catch
    (aOut : FetchOutcome (Option (List RawAnalysis)))
    (eOut : FetchOutcome (Option (List Employee)))
    (e : FetchOutcome Employee) (r : FetchOutcome RawAnalysis) :
    (∀ out, employeeApi.getAll out = Except.error () ↔ out = FetchOutcome.rejected)
      ∧ (∀ out, analysisApi.getAll out = Except.error () ↔ out = FetchOutcome.rejected)
      ∧ (employeeApi.create e = Except.error () ↔ e = FetchOutcome.rejected)
      ∧ (analysisApi.create r = Except.error () ↔ r = FetchOutcome.rejected)
      ∧ pageFetchData FetchOutcome.rejected eOut = ([], [])
      ∧ pageFetchData aOut FetchOutcome.rejected = ([], []) := by
  refine ⟨?_, ?_, ?_, ?_, ?_, ?_⟩
  · intro out
    cases out with
    | rejected => simp [employeeApi.getAll]
    | response ok body =>
        cases ok <;> simp [employeeApi.getAll]
  · intro out
    cases out with
    | rejected => simp [analysisApi.getAll]
    | response ok body =>
        cases ok <;> simp [analysisApi.getAll]
  · cases e with
    | rejected => simp [employeeApi.create]
    | response ok body =>
        cases ok <;> simp [employeeApi.create]
  · cases r with
    | rejected => simp [analysisApi.create]
    | response ok body =>
        cases ok <;> simp [analysisApi.create]
  · cases h : employeeApi.getAll eOut <;> simp [pageFetchData, h, analysisApi.getAll]
  · cases h : analysisApi.getAll aOut <;> simp [pageFetchData, h, employeeApi.getAll]

/-- C6 counterexample: the `src/lib/api.ts` `mapAnalysis` is not
idempotent.  Its output has no `theoretical_working_hours` /
`actual_working_hours` properties, so a second application reads them as
missing: on `raw160` the first application yields efficiency `90`, the
second yields `0`. -/
theorem mapAnalysis_not_idempotent :
    mapAnalysis ((mapAnalysis raw160).asRaw) ≠ mapAnalysis raw160 := by
  intro h
  have h90 := congrArg Analysis.efficiency_percentage h
  norm_num [mapAnalysis, Analysis.asRaw, raw160] at h90

/-- C6 amended: both variants are pure functions of their input (built by
constructing a fresh record, never mutating the argument); the
`frontend/src/lib/api.ts` variant, whose output echoes the raw hour
fields, is idempotent — indeed its output restricted to the input shape is
the input itself — while the `src/lib` variant zeroes the hour data on a
second application. -/
theorem mapAnalysisF_idempotent (raw : RawAnalysis) :
    (mapAnalysisF raw).asRaw = raw
      ∧ mapAnalysisF ((mapAnalysisF raw).asRaw) = mapAnalysisF raw
      ∧ (mapAnalysis ((mapAnalysis raw).asRaw)).theoretical_hours = 0 := by
  have hback : (mapAnalysisF raw).asRaw = raw := by
    cases raw
    rfl
  refine ⟨hback, by rw [hback], rfl⟩

/-- C7 counterexample: the all-or-nothing join fails for HTTP-status
failures.  With the analyses fetch answering non-2xx and the employees
fetch succeeding with one employee, the page renders an empty analyses
list next to a populated employees list — a partial display caused by a
failure. -/
theorem pageFetchData_partial_on_httpError :
    pageFetchData (FetchOutcome.response false none)
        (FetchOutcome.response true (some [ada])) = ([], [ada])
      ∧ ([ada] : List Employee) ≠ [] := by
  exact ⟨rfl, by simp⟩

/-- C7 amended: the join is all-or-nothing only for rejected fetches
(network error or timeout): if either promise rejects, both rendered lists
are empty.  A non-2xx response is absorbed into an empty list by that call
alone, so it can leave the other list populated. -/
theorem pageFetchData_allOrNothing_on_rejection
    (aOut : FetchOutcome (Option (List RawAnalysis)))
    (eOut : FetchOutcome (Option (List Employee)))
    (h : aOut = FetchOutcome.rejected ∨ eOut = FetchOutcome.rejected) :
    pageFetchData aOut eOut = ([], []) := by
  rcases h with h | h
  · subst h
    cases he : employeeApi.getAll eOut <;>
      simp [pageFetchData, he, analysisApi.getAll]
  · subst h
    cases ha : analysisApi.getAll aOut <;>
      simp [pageFetchData, ha, employeeApi.getAll]

/-- Witness for the amended C7 at a concrete pair of outcomes. -/
theorem pageFetchData_allOrNothing_on_rejection_witness :
    pageFetchData FetchOutcome.rejected
        (FetchOutcome.response true (some [ada])) = ([], []) :=
  pageFetchData_allOrNothing_on_rejection FetchOutcome.rejected
    (FetchOutcome.response true (some [ada])) (Or.inl rfl)

end HRAnalysis
